import Mathlib

/-!
Verification of the VGG19 factory function in `keras/applications/vgg19.py`.

The source file is a declarative builder: it validates the `weights`
argument, determines an input shape from the global image-dim-ordering
convention, wires a fixed stack of convolution / pooling / dense layers,
and optionally fetches and loads pretrained weights, converting kernel
layout when the weight file convention mismatches the active backend.

We embed the function shallowly: the ambient configuration read from the
Keras backend becomes an explicit `Config` record, the layer graph becomes
an ordered list of layer descriptors, and the effectful weight-loading
branch becomes an explicit trace of `Effect` values, in program order.
-/

namespace VGG

/-- The image dimension ordering convention, the value of
`K.image_dim_ordering()` (either the Theano or the TensorFlow one). -/
inductive DimOrdering
| th
| tf
deriving DecidableEq, Repr

/-- The active numeric backend, the value of `K.backend()`. -/
inductive Backend
| theano
| tensorflow
deriving DecidableEq, Repr

/-- The process-wide configuration the source reads (but never writes). -/
structure Config where
  dimOrdering : DimOrdering
  backend : Backend
deriving DecidableEq, Repr

/-- An opaque Keras tensor handle; `isKeras` records the result of
`K.is_keras_tensor` on it. -/
structure KTensor where
  id : Nat
  isKeras : Bool
deriving DecidableEq, Repr

/-- A layer descriptor, carrying exactly the hyperparameters the source
passes at each construction site.  Learning-rate multipliers are modelled
as rationals. -/
inductive Layer
| conv2d (filters k1 k2 : Nat) (activation borderMode name : String) (wLr bLr : ℚ)
| maxPool2d (pool strides : Nat × Nat) (name : String)
| flatten (name : String)
| dense (units : Nat) (activation name : String) (wLr bLr : ℚ)
deriving DecidableEq, Repr

/-- How the model input was obtained: a fresh `Input` placeholder (with the
declared shape, and possibly wrapping a non-Keras tensor), or a supplied
Keras tensor used verbatim. -/
inductive ImgInput
| newPlaceholder (shape : List (Option Nat)) (tensor : Option KTensor)
| fromTensor (t : KTensor)
deriving DecidableEq, Repr

/-- The composed model: its entry point and its ordered layer stack. -/
structure KModel where
  imgInput : ImgInput
  layers : List Layer
deriving DecidableEq, Repr

/-- An observable side effect of the weight-loading branch, in program
order: a `get_file` fetch, a `load_weights` call, a `warnings.warn`, or a
`convert_all_kernels_in_model` call. -/
inductive Effect
| getFile (fname origin cacheSubdir : String)
| loadWeights (path : String)
| warn (msg : String)
| convertKernels
deriving DecidableEq, Repr

/-- Tests whether an effect is a warning. -/
def Effect.isWarn : Effect → Bool
| .warn _ => true
| _ => false

def TH_WEIGHTS_PATH : String :=
  "https://github.com/fchollet/deep-learning-models/releases/download/v0.1/vgg19_weights_th_dim_ordering_th_kernels.h5"

def TF_WEIGHTS_PATH : String :=
  "https://github.com/fchollet/deep-learning-models/releases/download/v0.1/vgg19_weights_tf_dim_ordering_tf_kernels.h5"

def TH_WEIGHTS_PATH_NO_TOP : String :=
  "https://github.com/fchollet/deep-learning-models/releases/download/v0.1/vgg19_weights_th_dim_ordering_th_kernels_notop.h5"

def TF_WEIGHTS_PATH_NO_TOP : String :=
  "https://github.com/fchollet/deep-learning-models/releases/download/v0.1/vgg19_weights_tf_dim_ordering_tf_kernels_notop.h5"

/-- The ValueError message raised for an unrecognized `weights` argument. -/
def errMsg : String :=
  "The `weights` argument should be either `None` (random initialization) or `imagenet` (pre-training on ImageNet)."

/-- The warning issued when a Theano-ordered weight file is loaded on the
TensorFlow backend. -/
def thWarnMsg : String :=
  "You are using the TensorFlow backend, yet you are using the Theano image dimension ordering convention (`image_dim_ordering=\"th\"`). For best performance, set `image_dim_ordering=\"tf\"` in your Keras config at ~/.keras/keras.json."

/-- Modelled from the spec: `get_file` (in `keras.utils.data_utils`, not
under src/) fetches `origin` into the named cache subdirectory under the
local cache and returns the path of the cached file, keyed by `fname`. -/
def get_file (fname origin cacheSubdir : String) : String :=
  cacheSubdir ++ "/" ++ fname

/-- The declared input shape, exactly as computed at the top of `VGG19`
from the dim ordering and `include_top` (a `none` entry is a Python
`None`, an unconstrained dimension). -/
def inputShape (cfg : Config) (include_top : Bool) : List (Option Nat) :=
  match cfg.dimOrdering with
  | .th => if include_top then [some 3, some 224, some 224] else [some 3, none, none]
  | .tf => if include_top then [some 224, some 224, some 3] else [none, none, some 3]

/-- How `img_input` is chosen from `input_tensor`, following the source:
no tensor gives a fresh placeholder; a non-Keras tensor gives a fresh
placeholder wrapping it; a Keras tensor is used verbatim. -/
def imgInputOf (cfg : Config) (include_top : Bool) (input_tensor : Option KTensor) : ImgInput :=
  match input_tensor with
  | none => .newPlaceholder (inputShape cfg include_top) none
  | some t =>
    if ¬ t.isKeras then .newPlaceholder (inputShape cfg include_top) (some t)
    else .fromTensor t

/-- The five convolution/pooling blocks of the body, in application order,
exactly as wired in the source between `img_input` and `block5_pool`. -/
def backboneLayers (lr : ℚ) : List Layer :=
  [ .conv2d 64 3 3 "relu" "same" "block1_conv1" lr lr,
    .conv2d 64 3 3 "relu" "same" "block1_conv2" lr lr,
    .maxPool2d (2, 2) (2, 2) "block1_pool",
    .conv2d 128 3 3 "relu" "same" "block2_conv1" lr lr,
    .conv2d 128 3 3 "relu" "same" "block2_conv2" lr lr,
    .maxPool2d (2, 2) (2, 2) "block2_pool",
    .conv2d 256 3 3 "relu" "same" "block3_conv1" lr lr,
    .conv2d 256 3 3 "relu" "same" "block3_conv2" lr lr,
    .conv2d 256 3 3 "relu" "same" "block3_conv3" lr lr,
    .conv2d 256 3 3 "relu" "same" "block3_conv4" lr lr,
    .maxPool2d (2, 2) (2, 2) "block3_pool",
    .conv2d 512 3 3 "relu" "same" "block4_conv1" lr lr,
    .conv2d 512 3 3 "relu" "same" "block4_conv2" lr lr,
    .conv2d 512 3 3 "relu" "same" "block4_conv3" lr lr,
    .conv2d 512 3 3 "relu" "same" "block4_conv4" lr lr,
    .maxPool2d (2, 2) (2, 2) "block4_pool",
    .conv2d 512 3 3 "relu" "same" "block5_conv1" lr lr,
    .conv2d 512 3 3 "relu" "same" "block5_conv2" lr lr,
    .conv2d 512 3 3 "relu" "same" "block5_conv3" lr lr,
    .conv2d 512 3 3 "relu" "same" "block5_conv4" lr lr,
    .maxPool2d (2, 2) (2, 2) "block5_pool" ]

/-- The classification head, appended when `include_top` is true. -/
def headLayers (lr : ℚ) : List Layer :=
  [ .flatten "flatten",
    .dense 4096 "relu" "fc1" lr lr,
    .dense 4096 "relu" "fc2" lr lr,
    .dense 1000 "softmax" "predictions" lr lr ]

/-- The full ordered layer stack of the constructed graph. -/
def buildLayers (include_top : Bool) (lr : ℚ) : List Layer :=
  backboneLayers lr ++ (if include_top then headLayers lr else [])

/-- The effect trace of the weight-loading branch at the end of `VGG19`,
translated case by case from the source: nothing happens unless
`weights == 'imagenet'`; otherwise the file keyed by (dim ordering,
include_top) is fetched and loaded, and the kernel conversion (with a
warning only in the th/TensorFlow case) follows on a backend mismatch. -/
def loadBranch (cfg : Config) (include_top : Bool) (weights : Option String) : List Effect :=
  if weights = some "imagenet" then
    match cfg.dimOrdering with
    | .th =>
      let fname := if include_top then "vgg19_weights_th_dim_ordering_th_kernels.h5"
                   else "vgg19_weights_th_dim_ordering_th_kernels_notop.h5"
      let origin := if include_top then TH_WEIGHTS_PATH else TH_WEIGHTS_PATH_NO_TOP
      [.getFile fname origin "models", .loadWeights (get_file fname origin "models")] ++
        (if cfg.backend = .tensorflow then [.warn thWarnMsg, .convertKernels] else [])
    | .tf =>
      let fname := if include_top then "vgg19_weights_tf_dim_ordering_tf_kernels.h5"
                   else "vgg19_weights_tf_dim_ordering_tf_kernels_notop.h5"
      let origin := if include_top then TF_WEIGHTS_PATH else TF_WEIGHTS_PATH_NO_TOP
      [.getFile fname origin "models", .loadWeights (get_file fname origin "models")] ++
        (if cfg.backend = .theano then [.convertKernels] else [])
  else []

/-- The `VGG19` factory function.  `weights` is `none` for Python `None`
and `some s` for a string argument.  On success it returns the composed
model together with the ordered trace of side effects; the unrecognized
`weights` check fires first, before any construction or effect. -/
def VGG19 (cfg : Config) (include_top : Bool) (weights : Option String)
    (input_tensor : Option KTensor) (layers_lr : ℚ) :
    Except String (KModel × List Effect) :=
  if ¬ (weights = some "imagenet" ∨ weights = none) then
    .error errMsg
  else
    .ok (⟨imgInputOf cfg include_top input_tensor, buildLayers include_top layers_lr⟩,
         loadBranch cfg include_top weights)

/-- Tests whether a layer is a `Convolution2D`. -/
def Layer.isConv : Layer → Bool
| .conv2d _ _ _ _ _ _ _ _ => true
| _ => false

/-- Tests whether a layer is a `Flatten`. -/
def Layer.isFlatten : Layer → Bool
| .flatten _ => true
| _ => false

/-- Tests whether a layer is a `Dense`. -/
def Layer.isDense : Layer → Bool
| .dense _ _ _ _ _ => true
| _ => false

/-- Tests whether a layer has trainable parameters (convolution or dense). -/
def Layer.isTrainable : Layer → Bool
| .conv2d _ _ _ _ _ _ _ _ => true
| .dense _ _ _ _ _ => true
| _ => false

/-- The W learning-rate multiplier of a layer, when it has one. -/
def Layer.wMult : Layer → Option ℚ
| .conv2d _ _ _ _ _ _ w _ => some w
| .dense _ _ _ w _ => some w
| _ => none

/-- The b learning-rate multiplier of a layer, when it has one. -/
def Layer.bMult : Layer → Option ℚ
| .conv2d _ _ _ _ _ _ _ b => some b
| .dense _ _ _ _ b => some b
| _ => none

/-- The channel widths of the convolution layers of a stack, in order. -/
def convFilters (ls : List Layer) : List Nat :=
  ls.filterMap fun l =>
    match l with
    | .conv2d f _ _ _ _ _ _ _ => some f
    | _ => none

/-- Groups the convolution widths of a stack into pooling-terminated
stages: each `MaxPooling2D` closes the current stage; convolutions not
followed by a pooling layer belong to no stage. -/
def stagesAux : List Layer → List Nat → List (List Nat)
| [], _ => []
| .conv2d f _ _ _ _ _ _ _ :: rest, cur => stagesAux rest (cur ++ [f])
| .maxPool2d _ _ _ :: rest, cur => cur :: stagesAux rest []
| _ :: rest, cur => stagesAux rest cur

/-- The pooling-delimited stages of a layer stack. -/
def stages (ls : List Layer) : List (List Nat) :=
  stagesAux ls []

/-- Boolean check that a list of naturals is monotonically non-decreasing. -/
def nondecreasing : List Nat → Bool
| a :: b :: rest => a ≤ b && nondecreasing (b :: rest)
| _ => true

/-- The weight file name selected by (include_top, dim ordering). -/
def wFname (include_top : Bool) : DimOrdering → String
| .th => if include_top then "vgg19_weights_th_dim_ordering_th_kernels.h5"
         else "vgg19_weights_th_dim_ordering_th_kernels_notop.h5"
| .tf => if include_top then "vgg19_weights_tf_dim_ordering_tf_kernels.h5"
         else "vgg19_weights_tf_dim_ordering_tf_kernels_notop.h5"

/-- The weight file URL selected by (include_top, dim ordering). -/
def wOrigin (include_top : Bool) : DimOrdering → String
| .th => if include_top then TH_WEIGHTS_PATH else TH_WEIGHTS_PATH_NO_TOP
| .tf => if include_top then TF_WEIGHTS_PATH else TF_WEIGHTS_PATH_NO_TOP

/-- The channel entry of a declared shape under a convention: first entry
for channel-first (th), last entry for channel-last (tf). -/
def channelOf (cfg : Config) (s : List (Option Nat)) : Option Nat :=
  match cfg.dimOrdering with
  | .th => s.headI
  | .tf => s.getLastI

/-- The spatial entries of a declared shape under a convention. -/
def spatialOf (cfg : Config) (s : List (Option Nat)) : List (Option Nat) :=
  match cfg.dimOrdering with
  | .th => s.drop 1
  | .tf => s.dropLast

/-- Modelled from the spec: neither the convolution runtime of the
backends nor `convert_all_kernels_in_model` (in `keras.utils.layer_utils`)
is under src/; per the spec the conversion is a corrective kernel
transposition that must make a mismatched weight file numerically
equivalent to a native one.  We model a one-dimensional valid correlation
over integer signals: `dot` truncates to the shorter list. -/
def dot : List Int → List Int → Int
| a :: as, b :: bs => a * b + dot as bs
| _, _ => 0

/-- Valid cross-correlation of a signal with a kernel. -/
def correlate1d (xs k : List Int) : List Int :=
  (List.range (xs.length - k.length + 1)).map fun i => dot (xs.drop i) k

/-- Modelled from the spec: applying a convolution layer under a backend.
The TensorFlow backend computes cross-correlation with the stored kernel;
the Theano backend computes true convolution, i.e. cross-correlation with
the kernel flipped. -/
def backendConv (b : Backend) (kernel xs : List Int) : List Int :=
  match b with
  | .tensorflow => correlate1d xs kernel
  | .theano => correlate1d xs kernel.reverse

/-- Modelled from the spec: the corrective transposition applied to one
kernel by `convert_all_kernels_in_model` (a spatial flip). -/
def convertKernel (k : List Int) : List Int :=
  k.reverse

/-- Modelled from the spec: `convert_all_kernels_in_model` converts every
kernel of the model, once. -/
def convertAllKernels (ks : List (List Int)) : List (List Int) :=
  ks.map convertKernel

/-- Running a stack of convolution layers under a backend, in order. -/
def runNetwork (b : Backend) : List (List Int) → List Int → List Int
| [], xs => xs
| k :: ks, xs => runNetwork b ks (backendConv b k xs)

lemma backendConv_convertKernel (k xs : List Int) :
    backendConv .theano (convertKernel k) xs = backendConv .tensorflow k xs ∧
    backendConv .tensorflow (convertKernel k) xs = backendConv .theano k xs := by
  constructor <;> simp [backendConv, convertKernel, List.reverse_reverse]

/-- C1: an unrecognized `weights` argument makes `VGG19` raise the
descriptive ValueError, with no model constructed and no effect performed;
for `weights` equal to `imagenet` or `None` the validation error is never
raised. -/
theorem vgg19_weights_validation (cfg : Config) (include_top : Bool)
    (weights : Option String) (input_tensor : Option KTensor) (layers_lr : ℚ) :
    (¬ (weights = some "imagenet" ∨ weights = none) →
      VGG19 cfg include_top weights input_tensor layers_lr = .error errMsg) ∧
    ((weights = some "imagenet" ∨ weights = none) →
      ∃ r, VGG19 cfg include_top weights input_tensor layers_lr = .ok r) := by
  constructor
  · intro h
    simp [VGG19, h]
  · intro h
    exact ⟨(⟨imgInputOf cfg include_top input_tensor, buildLayers include_top layers_lr⟩,
            loadBranch cfg include_top weights), by simp [VGG19, h]⟩

/-- Witness for C1: a third value such as `"vgg16"` is rejected with the
error message, while `None` is accepted. -/
theorem vgg19_weights_validation_witness :
    VGG19 ⟨.tf, .tensorflow⟩ true (some "vgg16") none 1 = .error errMsg ∧
    ∃ r, VGG19 ⟨.tf, .tensorflow⟩ true none none 1 = .ok r :=
  ⟨(vgg19_weights_validation ⟨.tf, .tensorflow⟩ true (some "vgg16") none 1).1 (by decide),
   (vgg19_weights_validation ⟨.tf, .tensorflow⟩ true none none 1).2 (Or.inr rfl)⟩

/-- C2: every constructed graph has exactly sixteen `Convolution2D`
layers, grouped by the `MaxPooling2D` layers into five stages with widths
(64×2, 128×2, 256×4, 512×4, 512×4), a non-decreasing progression. -/
theorem vgg19_sixteen_convs (include_top : Bool) (lr : ℚ) :
    (buildLayers include_top lr).countP Layer.isConv = 16 ∧
    stages (buildLayers include_top lr) =
      [[64, 64], [128, 128], [256, 256, 256, 256],
       [512, 512, 512, 512], [512, 512, 512, 512]] ∧
    nondecreasing (convFilters (buildLayers include_top lr)) = true := by
  cases include_top <;> exact ⟨rfl, rfl, rfl⟩

/-- C10: with `weights = None` the weight-loading branch performs no
effect at all — no fetch, no load, no conversion — and the returned model
is exactly the freshly constructed graph. -/
theorem vgg19_none_weights_no_effects (cfg : Config) (include_top : Bool)
    (input_tensor : Option KTensor) (layers_lr : ℚ) :
    VGG19 cfg include_top none input_tensor layers_lr =
      .ok (⟨imgInputOf cfg include_top input_tensor,
            buildLayers include_top layers_lr⟩, []) := by
  simp [VGG19, loadBranch]

/-- C3 counterexample: with tf dim ordering on the Theano backend (a
layout mismatch), the call converts the kernels exactly once but emits no
warning at all, refuting the claim that every mismatch warns. -/
theorem vgg19_tf_theano_no_warn :
    ((VGG19 ⟨.tf, .theano⟩ true (some "imagenet") none 1).map
      fun p => (p.2.any Effect.isWarn, p.2.count .convertKernels)) =
    .ok (false, 1) := by
  rfl

/-- C3 (amended): on a layout mismatch (th file on the TensorFlow
backend, or tf file on the Theano backend) the call never raises, fetches
and loads the selected file, then applies the kernel conversion exactly
once after loading; the non-fatal warning is emitted only in the
th-file-on-TensorFlow case, not in the tf-file-on-Theano case. -/
theorem vgg19_mismatch_convert_once (cfg : Config) (include_top : Bool)
    (input_tensor : Option KTensor) (layers_lr : ℚ)
    (h : cfg = ⟨.th, .tensorflow⟩ ∨ cfg = ⟨.tf, .theano⟩) :
    ∃ m, VGG19 cfg include_top (some "imagenet") input_tensor layers_lr =
      .ok (m, [.getFile (wFname include_top cfg.dimOrdering)
                        (wOrigin include_top cfg.dimOrdering) "models",
               .loadWeights (get_file (wFname include_top cfg.dimOrdering)
                        (wOrigin include_top cfg.dimOrdering) "models")] ++
        (if cfg.dimOrdering = .th then [.warn thWarnMsg, .convertKernels]
         else [.convertKernels])) := by
  rcases h with h | h <;> subst h
  · exact ⟨⟨imgInputOf ⟨.th, .tensorflow⟩ include_top input_tensor,
            buildLayers include_top layers_lr⟩, by cases include_top <;> rfl⟩
  · exact ⟨⟨imgInputOf ⟨.tf, .theano⟩ include_top input_tensor,
            buildLayers include_top layers_lr⟩, by cases include_top <;> rfl⟩

/-- Witness for C3 (amended), at the tf-file-on-Theano mismatch. -/
theorem vgg19_mismatch_convert_once_witness :
    ∃ m, VGG19 ⟨.tf, .theano⟩ true (some "imagenet") none 1 =
      .ok (m, [.getFile (wFname true DimOrdering.tf)
                        (wOrigin true DimOrdering.tf) "models",
               .loadWeights (get_file (wFname true DimOrdering.tf)
                        (wOrigin true DimOrdering.tf) "models")] ++
        (if DimOrdering.tf = DimOrdering.th
         then [.warn thWarnMsg, .convertKernels] else [.convertKernels])) :=
  vgg19_mismatch_convert_once ⟨.tf, .theano⟩ true none 1 (Or.inr rfl)

/-- C4: with `weights = imagenet` the trace begins with a fetch of the
file selected by (include_top, dim ordering) into the `models` cache
subdirectory under its fixed name, immediately followed by loading
exactly the path that fetch returned. -/
theorem vgg19_imagenet_weight_file (cfg : Config) (include_top : Bool)
    (input_tensor : Option KTensor) (layers_lr : ℚ) :
    ∃ m rest,
      VGG19 cfg include_top (some "imagenet") input_tensor layers_lr =
        .ok (m, .getFile (wFname include_top cfg.dimOrdering)
                         (wOrigin include_top cfg.dimOrdering) "models" ::
                .loadWeights (get_file (wFname include_top cfg.dimOrdering)
                         (wOrigin include_top cfg.dimOrdering) "models") :: rest) := by
  obtain ⟨d, b⟩ := cfg
  cases d
  · exact ⟨⟨imgInputOf ⟨.th, b⟩ include_top input_tensor,
            buildLayers include_top layers_lr⟩,
           (if b = .tensorflow then [.warn thWarnMsg, .convertKernels] else []),
           by cases include_top <;> rfl⟩
  · exact ⟨⟨imgInputOf ⟨.tf, b⟩ include_top input_tensor,
            buildLayers include_top layers_lr⟩,
           (if b = .theano then [.convertKernels] else []),
           by cases include_top <;> rfl⟩

/-- C5: with no input tensor supplied, the entry point is a fresh
placeholder with the declared shape; with the head included that shape is
224×224 spatial with 3 channels placed per the active convention, and
without the head the spatial dimensions are unconstrained while the
channel count stays 3. -/
theorem vgg19_input_shape (cfg : Config) (include_top : Bool)
    (weights : Option String) (layers_lr : ℚ)
    (h : weights = some "imagenet" ∨ weights = none) :
    ((VGG19 cfg include_top weights none layers_lr).map fun p => p.1.imgInput) =
      .ok (.newPlaceholder (inputShape cfg include_top) none) ∧
    channelOf cfg (inputShape cfg include_top) = some 3 ∧
    spatialOf cfg (inputShape cfg include_top) =
      (if include_top then [some 224, some 224] else [none, none]) := by
  refine ⟨by simp [VGG19, imgInputOf, h, Except.map], ?_, ?_⟩ <;>
    · obtain ⟨d, b⟩ := cfg
      cases d <;> cases include_top <;> rfl

/-- Witness for C5, with the head included under tf ordering. -/
theorem vgg19_input_shape_witness :
    ((VGG19 ⟨.tf, .tensorflow⟩ true none none 1).map fun p => p.1.imgInput) =
      .ok (.newPlaceholder (inputShape ⟨.tf, .tensorflow⟩ true) none) ∧
    channelOf ⟨.tf, .tensorflow⟩ (inputShape ⟨.tf, .tensorflow⟩ true) = some 3 ∧
    spatialOf ⟨.tf, .tensorflow⟩ (inputShape ⟨.tf, .tensorflow⟩ true) =
      (if true then [some 224, some 224] else [none, none]) :=
  vgg19_input_shape ⟨.tf, .tensorflow⟩ true none 1 (Or.inr rfl)

/-- C6: with the head included, a `Flatten` and exactly the three Dense
layers (4096 relu, 4096 relu, 1000 softmax) are appended after the last
pooling layer and the final Dense is the output; without it, no flatten
or dense layer exists and the output is `block5_pool`. -/
theorem vgg19_head_layers (lr : ℚ) :
    (backboneLayers lr).getLast? = some (.maxPool2d (2, 2) (2, 2) "block5_pool") ∧
    buildLayers true lr =
      backboneLayers lr ++
        [.flatten "flatten",
         .dense 4096 "relu" "fc1" lr lr,
         .dense 4096 "relu" "fc2" lr lr,
         .dense 1000 "softmax" "predictions" lr lr] ∧
    (buildLayers true lr).getLast? = some (.dense 1000 "softmax" "predictions" lr lr) ∧
    buildLayers false lr = backboneLayers lr ∧
    (buildLayers false lr).countP (fun l => l.isFlatten || l.isDense) = 0 ∧
    (buildLayers false lr).getLast? = some (.maxPool2d (2, 2) (2, 2) "block5_pool") :=
  ⟨rfl, rfl, rfl, rfl, rfl, rfl⟩

/-- C7: a supplied input tensor that already is a Keras tensor is used
verbatim as the model entry point; no fresh placeholder is built. -/
theorem vgg19_keras_tensor_honored (cfg : Config) (include_top : Bool)
    (weights : Option String) (t : KTensor) (layers_lr : ℚ)
    (hw : weights = some "imagenet" ∨ weights = none) (ht : t.isKeras = true) :
    ((VGG19 cfg include_top weights (some t) layers_lr).map fun p => p.1.imgInput) =
      .ok (.fromTensor t) := by
  simp [VGG19, imgInputOf, hw, ht, Except.map]

/-- Witness for C7, at a concrete Keras tensor. -/
theorem vgg19_keras_tensor_honored_witness :
    ((VGG19 ⟨.th, .theano⟩ false none (some ⟨7, true⟩) 1).map fun p => p.1.imgInput) =
      .ok (.fromTensor ⟨7, true⟩) :=
  vgg19_keras_tensor_honored ⟨.th, .theano⟩ false none ⟨7, true⟩ 1 (Or.inr rfl) rfl

/-- C8: every trainable layer of the constructed stack carries exactly
`layers_lr` as both its W and b learning-rate multiplier, and the
trainable layers are precisely the sixteen convolutions plus, with the
head, the three dense layers. -/
theorem vgg19_uniform_lr_multipliers (include_top : Bool) (lr : ℚ) :
    ((buildLayers include_top lr).all fun l =>
      !l.isTrainable || (l.wMult == some lr && l.bMult == some lr)) = true ∧
    (buildLayers include_top lr).countP Layer.isTrainable =
      (if include_top then 19 else 16) := by
  cases include_top <;> constructor <;>
    simp [buildLayers, backboneLayers, headLayers,
          Layer.isTrainable, Layer.wMult, Layer.bMult]

/-- C9: convert-then-run equals run-with-native-weights — running the
converted kernels under the mismatched backend produces, on every input,
the same outputs as running the original kernels under their native
backend, in both directions. -/
theorem vgg19_convert_roundtrip (ks : List (List Int)) (xs : List Int) :
    runNetwork .theano (convertAllKernels ks) xs = runNetwork .tensorflow ks xs ∧
    runNetwork .tensorflow (convertAllKernels ks) xs = runNetwork .theano ks xs := by
  induction ks generalizing xs with
  | nil => exact ⟨rfl, rfl⟩
  | cons k ks ih =>
    refine ⟨?_, ?_⟩
    · calc runNetwork .theano (convertAllKernels (k :: ks)) xs
          = runNetwork .theano (convertAllKernels ks)
              (backendConv .theano (convertKernel k) xs) := rfl
        _ = runNetwork .theano (convertAllKernels ks) (backendConv .tensorflow k xs) := by
              rw [(backendConv_convertKernel k xs).1]
        _ = runNetwork .tensorflow ks (backendConv .tensorflow k xs) :=
              (ih (backendConv .tensorflow k xs)).1
        _ = runNetwork .tensorflow (k :: ks) xs := rfl
    · calc runNetwork .tensorflow (convertAllKernels (k :: ks)) xs
          = runNetwork .tensorflow (convertAllKernels ks)
              (backendConv .tensorflow (convertKernel k) xs) := rfl
        _ = runNetwork .tensorflow (convertAllKernels ks) (backendConv .theano k xs) := by
              rw [(backendConv_convertKernel k xs).2]
        _ = runNetwork .theano ks (backendConv .theano k xs) :=
              (ih (backendConv .theano k xs)).2
        _ = runNetwork .theano (k :: ks) xs := rfl

end VGG
